import Mathlib

/-!
# Verification of the BioSync gaze-overlay engine

Shallow embedding of `src/app/apps/web/src/components/gaze-overlay.tsx`:
the coordinate mapper, the highlight manager, the storage sync, and the
poll-loop step functions, with theorems checking the specification's claims.

JavaScript numbers are modelled exactly (no rounding): a value is either a
finite rational or one of the IEEE special values `+Infinity`, `-Infinity`,
`NaN`.  All numbers arriving from JSON (`response.json()`, parsed
calibration) are finite, since JSON cannot encode the special values; the
special values arise only from the arithmetic (division by zero, products
with infinities).  Negative zero is not modelled: the code never divides by
a computed value that could be `-0` (calibration dimensions come from JSON
text, where `-0` would have to be written literally; we treat `0` uniformly
as `+0`, as `JSON.parse("0")` yields).
-/

namespace GazeOverlay

/-- A JavaScript number: a finite rational or an IEEE special value. -/
inductive JSNum where
  | num (q : ℚ)
  | posInf
  | negInf
  | nan
deriving DecidableEq, Repr

namespace JSNum

/-- JavaScript multiplication `a * b` (exact on finite values). -/
def mul : JSNum → JSNum → JSNum
  | nan, _ => nan
  | _, nan => nan
  | num a, num b => num (a * b)
  | num a, posInf => if a = 0 then nan else if 0 < a then posInf else negInf
  | num a, negInf => if a = 0 then nan else if 0 < a then negInf else posInf
  | posInf, num b => if b = 0 then nan else if 0 < b then posInf else negInf
  | negInf, num b => if b = 0 then nan else if 0 < b then negInf else posInf
  | posInf, posInf => posInf
  | posInf, negInf => negInf
  | negInf, posInf => negInf
  | negInf, negInf => posInf

/-- JavaScript division `a / b` (exact on finite values; `0` is `+0`). -/
def div : JSNum → JSNum → JSNum
  | nan, _ => nan
  | _, nan => nan
  | num a, num b =>
      if b = 0 then
        if a = 0 then nan else if 0 < a then posInf else negInf
      else num (a / b)
  | posInf, num b => if 0 ≤ b then posInf else negInf
  | negInf, num b => if 0 ≤ b then negInf else posInf
  | num _, posInf => num 0
  | num _, negInf => num 0
  | posInf, posInf => nan
  | posInf, negInf => nan
  | negInf, posInf => nan
  | negInf, negInf => nan

/-- JavaScript `Math.min` (NaN-propagating). -/
def jmin : JSNum → JSNum → JSNum
  | nan, _ => nan
  | _, nan => nan
  | num a, num b => if a ≤ b then num a else num b
  | posInf, x => x
  | x, posInf => x
  | negInf, _ => negInf
  | _, negInf => negInf

/-- JavaScript `Math.max` (NaN-propagating). -/
def jmax : JSNum → JSNum → JSNum
  | nan, _ => nan
  | _, nan => nan
  | num a, num b => if a ≤ b then num b else num a
  | negInf, x => x
  | x, negInf => x
  | posInf, _ => posInf
  | _, posInf => posInf

/-- JavaScript `Number.isNaN`. -/
def isNaN : JSNum → Bool
  | nan => true
  | _ => false

end JSNum

/-- A coordinate pair as decoded from the backend's JSON body.  JSON numbers
are finite rationals. -/
structure Vec2 where
  x : ℚ
  y : ℚ
deriving DecidableEq, Repr

/-- The backend response body: optional `calibrated_position` and
`normalized_pupil` fields (`data?.calibrated_position`,
`data?.normalized_pupil`). -/
structure GazeData where
  calibrated_position : Option Vec2
  normalized_pupil : Option Vec2
deriving DecidableEq, Repr

/-- Parsed calibration `{width, height}` from local storage (JSON numbers,
hence finite). -/
structure Calib where
  width : ℚ
  height : ℚ
deriving DecidableEq, Repr

/-- The pre-clamp coordinate computation of `pollGaze` (source lines
143-155): the branch priority and the raw products, before the NaN guard
and the clamp.  `none` models `px === null || py === null` (neither branch
applicable). -/
def rawGaze (data : GazeData) (calibration : Option Calib)
    (innerWidth innerHeight : ℚ) : Option (JSNum × JSNum) :=
  match data.calibrated_position, calibration with
  | some p, some cal =>
      let scaleX := JSNum.div (.num innerWidth) (.num cal.width)
      let scaleY := JSNum.div (.num innerHeight) (.num cal.height)
      some (JSNum.mul (.num p.x) scaleX, JSNum.mul (.num p.y) scaleY)
  | _, _ =>
      match data.normalized_pupil with
      | some p => some (JSNum.mul (.num p.x) (.num innerWidth),
                        JSNum.mul (.num p.y) (.num innerHeight))
      | none => none

/-- The per-axis clamp `Math.max(12, Math.min(dim - 12, v))` of source
lines 168-169. -/
def clampAxis (dim : ℚ) (v : JSNum) : JSNum :=
  JSNum.jmax (.num 12) (JSNum.jmin (.num (dim - 12)) v)

/-- The coordinate mapper of `pollGaze` (source lines 143-169): raw
computation, then the `null`/`Number.isNaN` guard, then the clamp.
`none` models "no valid gaze this tick". -/
def mapGaze (data : GazeData) (calibration : Option Calib)
    (innerWidth innerHeight : ℚ) : Option (JSNum × JSNum) :=
  match rawGaze data calibration innerWidth innerHeight with
  | none => none
  | some (px, py) =>
      if px.isNaN || py.isNaN then none
      else some (clampAxis innerWidth px, clampAxis innerHeight py)

/-!
## Highlight manager

Elements are modelled by natural-number identifiers.  An element "carries
the highlight marker" when it is in `marked` (the source adds/removes the
six `highlightClasses` on `classList`; carrying all of them is one Boolean
per element, and `classList.add` is idempotent).  `current` models
`highlightedRef.current`.
-/

/-- State of `highlightedRef` plus the DOM's highlight markers. -/
structure HM where
  marked : List Nat
  current : Option Nat
deriving DecidableEq, Repr

/-- Effect of `classList.add` of the highlight classes: idempotent insertion. -/
def addMark (e : Nat) (l : List Nat) : List Nat :=
  if e ∈ l then l else e :: l

/-- Function `clearHighlight` (source lines 35-41): remove the marker from the
previously held element, if any, and null the ref. -/
def clearHighlight (s : HM) : HM :=
  match s.current with
  | some prev => { marked := s.marked.filter (fun x => x != prev), current := none }
  | none => s

/-- Function `applyHighlight` (source lines 43-54). -/
def applyHighlight (e : Option Nat) (s : HM) : HM :=
  if s.current = e then s
  else
    match e with
    | none => clearHighlight s
    | some el =>
        let s1 := clearHighlight s
        { marked := addMark el s1.marked, current := some el }

/-- The sequence of intermediate marker states produced by one
`applyHighlight` call, in execution order: the state on entry, the state
after `clearHighlight()`, and (for a fresh non-null target) the state after
`classList.add`.  Setting the ref and adding the classes touch no other
element, so they are one step for marker-counting purposes. -/
def applyHighlightTrace (e : Option Nat) (s : HM) : List HM :=
  if s.current = e then [s]
  else
    match e with
    | none => [s, clearHighlight s]
    | some el =>
        let s1 := clearHighlight s
        [s, s1, { marked := addMark el s1.marked, current := some el }]

/-- All intermediate marker states of a sequence of `applyHighlight`
calls, in execution order. -/
def runTrace (es : List (Option Nat)) (s : HM) : List HM :=
  match es with
  | [] => [s]
  | e :: rest => applyHighlightTrace e s ++ runTrace rest (applyHighlight e s)

/-- The initial highlight state: no element marked, ref null. -/
def hmInit : HM := ⟨[], none⟩

/-!
## Poll loop and overlay state

The component's mutable state: the `enabled` React state, the refs
(`backendRef`, `calibrationRef`, `pollingBusyRef`, `highlightedRef`) and
the `position` React state.  `pollGaze` is split at its `await` points
into a synchronous start (`pollTickStart`, source lines 122-130) and the
continuation that applies the fetch's outcome (`pollResolve`, source lines
131-181); JavaScript's event loop runs each part atomically.
-/

/-- The component state touched by the poll loop. -/
structure OverlayState where
  enabled : Bool
  busy : Bool
  backend : Option String
  calibration : Option Calib
  position : Option (JSNum × JSNum)
  hm : HM
deriving DecidableEq, Repr

/-- JavaScript truthiness of a nullable string (`null` and `""` are
falsy). -/
def truthy : Option String → Bool
  | none => false
  | some s => !(s == "")

/-- What the synchronous prefix of a tick did. -/
inductive TickOutcome where
  | skipped
  | disabledNoBackend
  | fetchStarted
deriving DecidableEq, Repr

/-- Source lines 122-130: the guards run before any fetch is dispatched.
`fetchStarted` means exactly one fetch was dispatched by this tick;
`skipped` and `disabledNoBackend` mean zero.  (`enabled` here is the value
captured by the active effect's closure, which coincides with the
component state while the loop is installed.) -/
def pollTickStart (s : OverlayState) : OverlayState × TickOutcome :=
  if !s.enabled || s.busy then (s, .skipped)
  else if !(truthy s.backend) then ({ s with enabled := false }, .disabledNoBackend)
  else ({ s with busy := true }, .fetchStarted)

/-- Outcome of the dispatched fetch as observed by the continuation:
rejection (network failure, or `response.json()` failure), a response
with `ok = false` (thrown at line 139), or a decoded body. -/
inductive FetchOutcome where
  | networkError
  | httpError
  | success (data : GazeData)
deriving DecidableEq, Repr

/-- Source lines 131-181: the continuation of `pollGaze` after the fetch
settles.  `hit` abstracts `document.elementFromPoint(...)?.closest("[data-gaze-activate]")`.
The `catch` branch clears position and highlight; the `finally` branch
clears the busy flag.  Note there is no `enabled` re-check after the
`await`. -/
def pollResolve (innerWidth innerHeight : ℚ) (hit : JSNum → JSNum → Option Nat)
    (out : FetchOutcome) (s : OverlayState) : OverlayState :=
  match out with
  | .networkError =>
      { s with position := none, hm := applyHighlight none s.hm, busy := false }
  | .httpError =>
      { s with position := none, hm := applyHighlight none s.hm, busy := false }
  | .success data =>
      match mapGaze data s.calibration innerWidth innerHeight with
      | none =>
          { s with position := none, hm := applyHighlight none s.hm, busy := false }
      | some (px, py) =>
          { s with position := some (px, py),
                   hm := applyHighlight (hit px py) s.hm, busy := false }

/-- Disabling the overlay: the `enabled` state flips to false, the
polling effect's cleanup runs (clear interval, `pollingBusyRef = false`,
source lines 187-193) and the effect re-runs its `!enabled` branch
(`setPosition(null)`, `clearHighlight()`, source lines 110-118). -/
def disableOverlay (s : OverlayState) : OverlayState :=
  { s with enabled := false, busy := false, position := none,
           hm := clearHighlight s.hm }

/-!
## Storage sync

`syncFromStorage` (source lines 56-74) reads the three persisted keys,
parses the calibration and recomputes the effective enabled state inside
one `try`; any throw (a `localStorage` read error or a `JSON.parse`
failure) lands in the `catch`, which warns and disables.
-/

/-- The calibration slot as seen through `getItem` + the truthiness test:
absent (`null` or `""`), a string that parses, or a string on which
`JSON.parse` throws. -/
inductive CalRaw where
  | absent
  | valid (c : Calib)
  | malformed
deriving DecidableEq, Repr

/-- One consistent view of the store during a `syncFromStorage` run;
`.error` on a slot means reading that key throws. -/
structure StorageView where
  backend : Except Unit (Option String)
  calibrationRaw : Except Unit CalRaw
  enabledRaw : Except Unit (Option String)

/-- The `catch` branch (source lines 68-73): warn, disable, clear point
and highlight.  `b`/`c` are whatever the refs hold when the throw
happens (assignments before the throwing statement have completed). -/
def catchSync (s : OverlayState) (b : Option String) (c : Option Calib) :
    OverlayState :=
  { s with backend := b, calibration := c, enabled := false, position := none,
           hm := clearHighlight s.hm }

/-- Function `syncFromStorage` (source lines 56-74).  The returned `Bool` records
whether `console.warn` ran (i.e. the `catch` was taken). -/
def syncFromStorage (v : StorageView) (s : OverlayState) : OverlayState × Bool :=
  match v.backend with
  | .error _ => (catchSync s s.backend s.calibration, true)
  | .ok b =>
      match v.calibrationRaw with
      | .error _ => (catchSync s b s.calibration, true)
      | .ok .malformed => (catchSync s b s.calibration, true)
      | .ok calOk =>
          let cal : Option Calib :=
            match calOk with
            | .valid c => some c
            | _ => none
          match v.enabledRaw with
          | .error _ => (catchSync s b cal, true)
          | .ok flag =>
              let overlayEnabled := flag == some "true"
              let canEnable := overlayEnabled && truthy b
              if canEnable then
                ({ s with backend := b, calibration := cal, enabled := true }, false)
              else
                ({ s with backend := b, calibration := cal, enabled := false,
                          position := none, hm := clearHighlight s.hm }, false)

/-!
## Highlight-manager lemmas
-/

/-- The marker state is consistent: exactly the element held by the ref
(if any) carries the marker. -/
def goodHM (s : HM) : Prop :=
  s.marked = s.current.elim [] (fun e => [e])

lemma goodHM_init : goodHM hmInit := rfl

lemma goodHM_marked_le (s : HM) (h : goodHM s) : s.marked.length ≤ 1 := by
  cases hc : s.current <;> rw [goodHM, hc] at h <;> simp [h]

lemma clearHighlight_good (s : HM) (h : goodHM s) : clearHighlight s = hmInit := by
  rcases s with ⟨m, c⟩
  cases c with
  | none =>
      have hm : m = [] := h
      simp [clearHighlight, hmInit, hm]
  | some p =>
      have hm : m = [p] := h
      simp [clearHighlight, hmInit, hm]

lemma applyHighlight_good (e : Option Nat) (s : HM) (h : goodHM s) :
    goodHM (applyHighlight e s) := by
  unfold applyHighlight
  split
  · exact h
  · cases e with
    | none =>
        rw [clearHighlight_good s h]
        exact goodHM_init
    | some el =>
        rw [clearHighlight_good s h]
        simp [goodHM, hmInit, addMark]

lemma applyHighlight_current (e : Option Nat) (s : HM) :
    (applyHighlight e s).current = e := by
  unfold applyHighlight
  split
  · next heq => exact heq
  · next hne =>
      cases e with
      | none =>
          cases hc : s.current with
          | none => exact absurd hc hne
          | some p => simp [clearHighlight, hc]
      | some el => simp

lemma applyHighlight_noop (e : Option Nat) (s : HM) (h : s.current = e) :
    applyHighlight e s = s := by
  unfold applyHighlight
  simp [h]

lemma applyHighlightTrace_noop (e : Option Nat) (s : HM) (h : s.current = e) :
    applyHighlightTrace e s = [s] := by
  unfold applyHighlightTrace
  simp [h]

lemma trace_marked_le (e : Option Nat) (s : HM) (h : goodHM s) :
    ∀ t ∈ applyHighlightTrace e s, t.marked.length ≤ 1 := by
  intro t ht
  unfold applyHighlightTrace at ht
  split at ht
  · simp at ht
    rw [ht]
    exact goodHM_marked_le s h
  · cases e with
    | none =>
        simp at ht
        rcases ht with ht | ht
        · rw [ht]; exact goodHM_marked_le s h
        · subst ht
          rw [clearHighlight_good s h]
          simp [hmInit]
    | some el =>
        simp at ht
        rcases ht with ht | ht | ht
        · rw [ht]; exact goodHM_marked_le s h
        · subst ht
          rw [clearHighlight_good s h]
          simp [hmInit]
        · subst ht
          rw [clearHighlight_good s h]
          simp [hmInit, addMark]

lemma runTrace_marked_le (es : List (Option Nat)) (s : HM) (h : goodHM s) :
    ∀ t ∈ runTrace es s, t.marked.length ≤ 1 := by
  induction es generalizing s with
  | nil =>
      intro t ht
      simp [runTrace] at ht
      rw [ht]
      exact goodHM_marked_le s h
  | cons e rest ih =>
      intro t ht
      simp only [runTrace, List.mem_append] at ht
      rcases ht with ht | ht
      · exact trace_marked_le e s h t ht
      · exact ih (applyHighlight e s) (applyHighlight_good e s h) t ht

/-- C6 — Highlight exclusivity: along any sequence of `applyHighlight`
calls starting from the initial state, every intermediate marker state —
including the transient states inside each call, which clear the previous
element's marker before marking the new one — has at most one marked
element. -/
theorem highlight_exclusive (es : List (Option Nat)) (t : HM)
    (ht : t ∈ runTrace es hmInit) : t.marked.length ≤ 1 :=
  runTrace_marked_le es hmInit goodHM_init t ht

theorem highlight_exclusive_witness :
    (HM.mk [2] (some 2)).marked.length ≤ 1 :=
  highlight_exclusive [some 1, some 2] ⟨[2], some 2⟩ (by decide)

/-- C7 — Idempotent repeat: for every target (including `null`),
`applyHighlight x` immediately followed by `applyHighlight x` leaves the
state unchanged, and the second call's execution trace is the trivial
one-state trace (the early-return branch: the target equals the held
one), so it performs no mutation. -/
theorem applyHighlight_idempotent (e : Option Nat) (s : HM) :
    applyHighlight e (applyHighlight e s) = applyHighlight e s ∧
    applyHighlightTrace e (applyHighlight e s) = [applyHighlight e s] ∧
    (applyHighlight e s).current = e :=
  ⟨applyHighlight_noop e _ (applyHighlight_current e s),
   applyHighlightTrace_noop e _ (applyHighlight_current e s),
   applyHighlight_current e s⟩

/-!
## Poll-loop theorems
-/

/-- C4 — Single-flight discipline: a tick that fires while the busy flag
is set performs zero fetches and changes no state; when not busy (and
enabled with a backend configured) the tick sets the busy flag and
dispatches exactly one fetch; and the continuation of every cycle clears
the busy flag on completion, whatever the outcome. -/
theorem single_flight (s : OverlayState) :
    (s.busy = true → pollTickStart s = (s, .skipped)) ∧
    (s.busy = false → s.enabled = true → truthy s.backend = true →
      pollTickStart s = ({ s with busy := true }, .fetchStarted)) ∧
    (∀ vw vh hit out, (pollResolve vw vh hit out s).busy = false) := by
  refine ⟨?_, ?_, ?_⟩
  · intro hb
    unfold pollTickStart
    simp [hb]
  · intro hb he ht
    unfold pollTickStart
    simp [hb, he, ht]
  · intro vw vh hit out
    cases out with
    | networkError => rfl
    | httpError => rfl
    | success data =>
        unfold pollResolve
        cases hmg : mapGaze data s.calibration vw vh with
        | none => simp [hmg]
        | some p => cases p with | mk px py => simp [hmg]

theorem single_flight_witness :
    pollTickStart ⟨true, true, some "http://b", none, none, ⟨[], none⟩⟩
      = (⟨true, true, some "http://b", none, none, ⟨[], none⟩⟩, .skipped) ∧
    pollTickStart ⟨true, false, some "http://b", none, none, ⟨[], none⟩⟩
      = (⟨true, true, some "http://b", none, none, ⟨[], none⟩⟩, .fetchStarted) ∧
    (pollResolve 1920 1080 (fun _ _ => none) .networkError
      ⟨true, true, some "http://b", none, none, ⟨[], none⟩⟩).busy = false :=
  ⟨(single_flight _).1 rfl,
   (single_flight ⟨true, false, some "http://b", none, none, ⟨[], none⟩⟩).2.1
      rfl rfl (by decide),
   (single_flight _).2.2 1920 1080 (fun _ _ => none) .networkError⟩

/-- C8 — A non-2xx HTTP response is handled identically to a network
failure: same resulting state (position nulled, highlight cleared, busy
flag down), and the next tick on that state — still enabled, backend
configured — dispatches a fresh fetch. -/
theorem http_error_like_network (vw vh : ℚ) (hit : JSNum → JSNum → Option Nat)
    (s : OverlayState) :
    pollResolve vw vh hit .httpError s = pollResolve vw vh hit .networkError s ∧
    (pollResolve vw vh hit .httpError s).position = none ∧
    (pollResolve vw vh hit .httpError s).hm = applyHighlight none s.hm ∧
    (pollResolve vw vh hit .httpError s).busy = false ∧
    (s.enabled = true → truthy s.backend = true →
      pollTickStart (pollResolve vw vh hit .httpError s)
        = ({ pollResolve vw vh hit .httpError s with busy := true },
           .fetchStarted)) := by
  refine ⟨rfl, rfl, rfl, rfl, ?_⟩
  intro he ht
  unfold pollTickStart pollResolve
  simp [he, ht]

theorem http_error_like_network_witness :
    pollResolve 1920 1080 (fun _ _ => none) .httpError
        ⟨true, false, some "http://b", none, some (.num 30, .num 40), ⟨[5], some 5⟩⟩
      = pollResolve 1920 1080 (fun _ _ => none) .networkError
        ⟨true, false, some "http://b", none, some (.num 30, .num 40), ⟨[5], some 5⟩⟩ ∧
    pollTickStart (pollResolve 1920 1080 (fun _ _ => none) .httpError
        ⟨true, false, some "http://b", none, some (.num 30, .num 40), ⟨[5], some 5⟩⟩)
      = ({ pollResolve 1920 1080 (fun _ _ => none) .httpError
            ⟨true, false, some "http://b", none, some (.num 30, .num 40), ⟨[5], some 5⟩⟩
           with busy := true }, .fetchStarted) :=
  ⟨(http_error_like_network 1920 1080 (fun _ _ => none) _).1,
   (http_error_like_network 1920 1080 (fun _ _ => none)
      ⟨true, false, some "http://b", none, some (.num 30, .num 40), ⟨[5], some 5⟩⟩).2.2.2.2
      rfl (by decide)⟩

/-- C5 — Violated by the code: the continuation of `pollGaze` performs no
enabled/staleness re-check after its `await`s, so a fetch that was in
flight when the overlay was disabled still applies its result when it
resolves.  Concretely: a tick starts a fetch; the overlay is disabled
(position nulled, highlight cleared); the fetch then resolves with a valid
calibrated sample over an activatable element — and the resolution
re-populates `position` and re-applies the highlight.  (The rendered dot
stays invisible only because the JSX also checks `enabled`; the highlight
classes on the element come back and persist.) -/
theorem stale_fetch_repopulates_after_disable :
    (pollTickStart ⟨true, false, some "http://b", some ⟨1280, 720⟩, none, ⟨[], none⟩⟩).2
        = .fetchStarted ∧
    disableOverlay (pollTickStart
        ⟨true, false, some "http://b", some ⟨1280, 720⟩, none, ⟨[], none⟩⟩).1
      = ⟨false, false, some "http://b", some ⟨1280, 720⟩, none, ⟨[], none⟩⟩ ∧
    pollResolve 1920 1080 (fun _ _ => some 7)
        (.success ⟨some ⟨640, 360⟩, none⟩)
        ⟨false, false, some "http://b", some ⟨1280, 720⟩, none, ⟨[], none⟩⟩
      = ⟨false, false, some "http://b", some ⟨1280, 720⟩,
         some (.num 960, .num 540), ⟨[7], some 7⟩⟩ := by
  refine ⟨by decide, by decide, ?_⟩
  norm_num [pollResolve, mapGaze, rawGaze, clampAxis, JSNum.mul, JSNum.div,
    JSNum.jmin, JSNum.jmax, JSNum.isNaN, applyHighlight, clearHighlight, addMark]
  decide

/-!
## Storage-sync theorems
-/

/-- C9 counterexample — With the backend URL present and the enabled flag
set to `"true"`, a calibration string on which `JSON.parse` throws lands in
the `catch` of `syncFromStorage`, which sets `enabled` to `false` (and
clears position and highlight): a malformed calibration value alone does
force the effective enabled state to false.  The warning is logged (second
component `true`). -/
theorem malformed_calibration_disables :
    (syncFromStorage
        ⟨.ok (some "http://b"), .ok .malformed, .ok (some "true")⟩
        ⟨true, false, some "http://b", none, some (.num 30, .num 40), ⟨[5], some 5⟩⟩).1.enabled
      = false ∧
    (syncFromStorage
        ⟨.ok (some "http://b"), .ok .malformed, .ok (some "true")⟩
        ⟨true, false, some "http://b", none, some (.num 30, .num 40), ⟨[5], some 5⟩⟩).2
      = true := by
  constructor <;> rfl

/-- C9 amended — A calibration JSON decode failure, or a storage read
error at any of the three keys, is caught by `syncFromStorage`: it never
propagates (the function is total), a warning is logged, and the overlay
is fully disabled — `enabled` is set to `false` and the displayed point
and highlight are cleared — even when the backend URL is present and the
enabled flag is set.  The decode failure is NOT treated as "no
calibration": `calibrationRef` keeps its previous value and the enabled
recomputation never runs. -/
theorem sync_failure_caught (b : Option String)
    (f : Except Unit (Option String)) (c : Except Unit CalRaw)
    (eB eC eE : Unit) (s : OverlayState) :
    syncFromStorage ⟨.ok b, .ok .malformed, f⟩ s
        = (catchSync s b s.calibration, true) ∧
    syncFromStorage ⟨.error eB, c, f⟩ s
        = (catchSync s s.backend s.calibration, true) ∧
    syncFromStorage ⟨.ok b, .error eC, f⟩ s
        = (catchSync s b s.calibration, true) ∧
    syncFromStorage ⟨.ok b, .ok .absent, .error eE⟩ s
        = (catchSync s b none, true) ∧
    (catchSync s b s.calibration).enabled = false ∧
    (catchSync s b s.calibration).position = none ∧
    (catchSync s b s.calibration).hm = clearHighlight s.hm ∧
    (catchSync s b s.calibration).calibration = s.calibration ∧
    (syncFromStorage ⟨.ok b, .ok .malformed, f⟩ s).2 = true := by
  refine ⟨rfl, rfl, rfl, rfl, rfl, rfl, rfl, rfl, rfl⟩

/-!
## Coordinate-mapper theorems
-/

/-- In the exact JavaScript-number model, multiplying by a quotient is the
quotient of the product, including the division-by-zero cases (the sign of
the resulting infinity, and NaN for `0/0`, agree). -/
lemma mul_num_div_num (x a b : ℚ) :
    JSNum.mul (.num x) (JSNum.div (.num a) (.num b)) =
    JSNum.div (JSNum.mul (.num x) (.num a)) (.num b) := by
  by_cases hb : b = 0
  · subst hb
    rcases lt_trichotomy a 0 with ha | ha | ha
    · have hna : a ≠ 0 := ha.ne
      have hnlt : ¬ 0 < a := not_lt.mpr ha.le
      rcases lt_trichotomy x 0 with hx | hx | hx
      · have h2 : 0 < x * a := mul_pos_of_neg_of_neg hx ha
        simp [JSNum.div, JSNum.mul, hna, hnlt, hx.ne, not_lt.mpr hx.le, h2.ne', h2]
      · subst hx
        simp [JSNum.div, JSNum.mul, hna, hnlt]
      · have h2 : x * a < 0 := mul_neg_of_pos_of_neg hx ha
        simp [JSNum.div, JSNum.mul, hna, hnlt, hx.ne', hx, h2.ne, not_lt.mpr h2.le]
    · subst ha
      simp [JSNum.div, JSNum.mul]
    · have hna : a ≠ 0 := ha.ne'
      rcases lt_trichotomy x 0 with hx | hx | hx
      · have h2 : x * a < 0 := mul_neg_of_neg_of_pos hx ha
        simp [JSNum.div, JSNum.mul, hna, ha, hx.ne, not_lt.mpr hx.le, h2.ne, not_lt.mpr h2.le]
      · subst hx
        simp [JSNum.div, JSNum.mul, hna, ha]
      · have h2 : 0 < x * a := mul_pos hx ha
        simp [JSNum.div, JSNum.mul, hna, ha, hx.ne', hx, h2.ne', h2]
  · simp [JSNum.div, JSNum.mul, hb, mul_div_assoc]

/-- C1 — Calibrated mapping: whenever a sample with `calibrated_position
{x, y}` is received while a calibration `{w, h}` is present and the mapper
produces a point, that point is `(x * viewportWidth / w,
y * viewportHeight / h)` with each axis clamped by
`Math.max(12, Math.min(dim - 12, ·))`. -/
theorem calibrated_mapping (x y w h vw vh : ℚ) (np : Option Vec2)
    (p : JSNum × JSNum)
    (hmap : mapGaze ⟨some ⟨x, y⟩, np⟩ (some ⟨w, h⟩) vw vh = some p) :
    p = (clampAxis vw (JSNum.div (JSNum.mul (.num x) (.num vw)) (.num w)),
         clampAxis vh (JSNum.div (JSNum.mul (.num y) (.num vh)) (.num h))) := by
  rw [← mul_num_div_num x vw w, ← mul_num_div_num y vh h]
  simp only [mapGaze, rawGaze] at hmap
  split at hmap
  · exact absurd hmap (by simp)
  · simp only [Option.some.injEq] at hmap
    exact hmap.symm

/-- C1 witness: viewport 1920×1080, calibration `{width:1280, height:720}`,
`calibrated_position {x:640, y:360}` maps to `(960, 540)`, unchanged by
clamping. -/
theorem calibrated_mapping_witness :
    mapGaze ⟨some ⟨640, 360⟩, none⟩ (some ⟨1280, 720⟩) 1920 1080
      = some (.num 960, .num 540) ∧
    ((.num 960, .num 540) : JSNum × JSNum)
      = (clampAxis 1920 (JSNum.div (JSNum.mul (.num 640) (.num 1920)) (.num 1280)),
         clampAxis 1080 (JSNum.div (JSNum.mul (.num 360) (.num 1080)) (.num 720))) := by
  have hmap : mapGaze ⟨some ⟨640, 360⟩, none⟩ (some ⟨1280, 720⟩) 1920 1080
      = some (.num 960, .num 540) := by
    norm_num [mapGaze, rawGaze, clampAxis, JSNum.mul, JSNum.div, JSNum.jmin,
      JSNum.jmax, JSNum.isNaN]
  exact ⟨hmap, calibrated_mapping 640 360 1280 720 1920 1080 none _ hmap⟩

/-- C2 — Normalized mapping: when the calibrated branch does not apply
(no `calibrated_position` or no calibration) and `normalized_pupil {x, y}`
is present, the mapped point is `(x * viewportWidth, y * viewportHeight)`,
each axis clamped identically. -/
theorem normalized_mapping (x y vw vh : ℚ) (cp : Option Vec2)
    (cal : Option Calib) (p : JSNum × JSNum)
    (hbranch : cp = none ∨ cal = none)
    (hmap : mapGaze ⟨cp, some ⟨x, y⟩⟩ cal vw vh = some p) :
    p = (clampAxis vw (JSNum.mul (.num x) (.num vw)),
         clampAxis vh (JSNum.mul (.num y) (.num vh))) := by
  have hraw : rawGaze ⟨cp, some ⟨x, y⟩⟩ cal vw vh
      = some (JSNum.mul (.num x) (.num vw), JSNum.mul (.num y) (.num vh)) := by
    rcases hbranch with hcp | hcal
    · subst hcp
      cases cal <;> rfl
    · subst hcal
      cases cp <;> rfl
  simp only [mapGaze, hraw] at hmap
  split at hmap
  · exact absurd hmap (by simp)
  · simp only [Option.some.injEq] at hmap
    exact hmap.symm

/-- C2 witness: `normalized_pupil {x:0, y:0}` on a 1920×1080 viewport
computes `(0, 0)` pre-clamp and is returned as `(12, 12)`. -/
theorem normalized_mapping_witness :
    rawGaze ⟨none, some ⟨0, 0⟩⟩ none 1920 1080 = some (.num 0, .num 0) ∧
    mapGaze ⟨none, some ⟨0, 0⟩⟩ none 1920 1080 = some (.num 12, .num 12) ∧
    ((.num 12, .num 12) : JSNum × JSNum)
      = (clampAxis 1920 (JSNum.mul (.num 0) (.num 1920)),
         clampAxis 1080 (JSNum.mul (.num 0) (.num 1080))) := by
  have hmap : mapGaze ⟨none, some ⟨0, 0⟩⟩ none 1920 1080
      = some (.num 12, .num 12) := by
    norm_num [mapGaze, rawGaze, clampAxis, JSNum.mul, JSNum.div, JSNum.jmin,
      JSNum.jmax, JSNum.isNaN]
  refine ⟨by norm_num [rawGaze, JSNum.mul], hmap, ?_⟩
  exact normalized_mapping 0 0 1920 1080 none none _ (Or.inl rfl) hmap

/-- C3 counterexample — The guard at source lines 157-162 checks only
`Number.isNaN`, not `Number.isFinite`: with calibration `{width:0,
height:720}` the x scale factor is `1920 / 0 = +Infinity`, the computed
x coordinate is `640 * Infinity = +Infinity`, and the mapper does NOT
yield `null` — it clamps the infinite coordinate to `1908 = 1920 - 12`
and returns a point. -/
theorem infinite_coordinate_not_nulled :
    rawGaze ⟨some ⟨640, 360⟩, none⟩ (some ⟨0, 720⟩) 1920 1080
      = some (.posInf, .num 540) ∧
    mapGaze ⟨some ⟨640, 360⟩, none⟩ (some ⟨0, 720⟩) 1920 1080
      = some (.num 1908, .num 540) ∧
    mapGaze ⟨some ⟨640, 360⟩, none⟩ (some ⟨0, 720⟩) 1920 1080 ≠ none := by
  have h2 : mapGaze ⟨some ⟨640, 360⟩, none⟩ (some ⟨0, 720⟩) 1920 1080
      = some (.num 1908, .num 540) := by
    norm_num [mapGaze, rawGaze, clampAxis, JSNum.mul, JSNum.div, JSNum.jmin,
      JSNum.jmax, JSNum.isNaN]
  refine ⟨by norm_num [rawGaze, JSNum.mul, JSNum.div], h2, ?_⟩
  rw [h2]
  exact Option.some_ne_none _

/-- C3 amended — The mapper yields `null` exactly when the coordinates are
absent (neither branch applies) or a computed coordinate is `NaN`; an
infinite computed coordinate is not nulled but clamped.  When the mapper
yields `null`, that tick's resolution clears the displayed point and the
highlight (and drops the busy flag). -/
theorem mapGaze_none_characterisation (d : GazeData) (vw vh : ℚ)
    (s : OverlayState) (hit : JSNum → JSNum → Option Nat) :
    (rawGaze d s.calibration vw vh = none → mapGaze d s.calibration vw vh = none) ∧
    (∀ px py, rawGaze d s.calibration vw vh = some (px, py) →
      (mapGaze d s.calibration vw vh = none ↔ (px.isNaN || py.isNaN) = true)) ∧
    (mapGaze d s.calibration vw vh = none →
      pollResolve vw vh hit (.success d) s
        = { s with position := none, hm := applyHighlight none s.hm,
                   busy := false }) := by
  refine ⟨?_, ?_, ?_⟩
  · intro hraw
    simp [mapGaze, hraw]
  · intro px py hraw
    simp only [mapGaze, hraw]
    constructor
    · intro hnone
      by_contra hnan
      simp [hnan] at hnone
    · intro hnan
      simp [hnan]
  · intro hnone
    unfold pollResolve
    simp [hnone]

/-- C3 witness: absent coordinates (an empty body) yield `null`; a NaN
x coordinate (`0 * (1920 / 0) = NaN`) yields `null`; and on `null` the
tick's resolution clears position and highlight. -/
theorem mapGaze_none_witness :
    mapGaze ⟨none, none⟩ none 1920 1080 = none ∧
    mapGaze ⟨some ⟨0, 360⟩, none⟩ (some ⟨0, 720⟩) 1920 1080 = none ∧
    pollResolve 1920 1080 (fun _ _ => some 3) (.success ⟨none, none⟩)
        ⟨false, true, some "http://b", none, some (.num 30, .num 40), ⟨[5], some 5⟩⟩
      = ⟨false, false, some "http://b", none, none, ⟨[], none⟩⟩ := by
  have h1 : mapGaze ⟨none, none⟩ none 1920 1080 = none :=
    (mapGaze_none_characterisation ⟨none, none⟩ 1920 1080
      ⟨false, true, some "http://b", none, some (.num 30, .num 40), ⟨[5], some 5⟩⟩
      (fun _ _ => some 3)).1 rfl
  have hraw : rawGaze ⟨some ⟨0, 360⟩, none⟩ (some ⟨0, 720⟩) 1920 1080
      = some (.nan, .num 540) := by
    norm_num [rawGaze, JSNum.mul, JSNum.div]
  have h2 : mapGaze ⟨some ⟨0, 360⟩, none⟩
      (some ⟨(0:ℚ), (720:ℚ)⟩) 1920 1080 = none :=
    ((mapGaze_none_characterisation ⟨some ⟨0, 360⟩, none⟩ 1920 1080
      ⟨false, true, some "http://b", some ⟨0, 720⟩, none, ⟨[], none⟩⟩
      (fun _ _ => some 3)).2.1 .nan (.num 540) hraw).mpr rfl
  have h3 := (mapGaze_none_characterisation ⟨none, none⟩ 1920 1080
      ⟨false, true, some "http://b", none, some (.num 30, .num 40), ⟨[5], some 5⟩⟩
      (fun _ _ => some 3)).2.2 h1
  refine ⟨h1, h2, ?_⟩
  rw [h3]
  rfl

lemma jmin_num_num (a b : ℚ) :
    JSNum.jmin (.num a) (.num b) = if a ≤ b then .num a else .num b := rfl

lemma jmax_num_num (a b : ℚ) :
    JSNum.jmax (.num a) (.num b) = if a ≤ b then .num b else .num a := rfl

/-- Closed form of the clamp on a finite value. -/
lemma clampAxis_num (dim a : ℚ) :
    clampAxis dim (.num a) =
      if dim - 12 ≤ a then (if (12:ℚ) ≤ dim - 12 then .num (dim - 12) else .num 12)
      else (if (12:ℚ) ≤ a then .num a else .num 12) := by
  unfold clampAxis
  rw [jmin_num_num]
  by_cases h1 : dim - 12 ≤ a
  · rw [if_pos h1, if_pos h1, jmax_num_num]
  · rw [if_neg h1, if_neg h1, jmax_num_num]

/-- The clamp on `+Infinity` yields the upper bound (or 12 if that bound
is below 12). -/
lemma clampAxis_posInf (dim : ℚ) :
    clampAxis dim .posInf
      = if (12:ℚ) ≤ dim - 12 then .num (dim - 12) else .num 12 := by
  unfold clampAxis
  show JSNum.jmax (.num 12) (.num (dim - 12)) = _
  rw [jmax_num_num]

lemma clampAxis_negInf (dim : ℚ) : clampAxis dim .negInf = .num 12 := rfl

/-- Clamping any non-NaN value with finite bounds yields a finite value
of at least 12. -/
lemma clampAxis_lower (dim : ℚ) (v : JSNum) (hv : v.isNaN = false) :
    ∃ q : ℚ, clampAxis dim v = .num q ∧ 12 ≤ q := by
  cases v with
  | nan => simp [JSNum.isNaN] at hv
  | num a =>
      rw [clampAxis_num]
      by_cases h1 : dim - 12 ≤ a
      · rw [if_pos h1]
        by_cases h2 : (12:ℚ) ≤ dim - 12
        · exact ⟨dim - 12, if_pos h2, h2⟩
        · exact ⟨12, if_neg h2, le_refl 12⟩
      · rw [if_neg h1]
        by_cases h2 : (12:ℚ) ≤ a
        · exact ⟨a, if_pos h2, h2⟩
        · exact ⟨12, if_neg h2, le_refl 12⟩
  | posInf =>
      rw [clampAxis_posInf]
      by_cases h2 : (12:ℚ) ≤ dim - 12
      · exact ⟨dim - 12, if_pos h2, h2⟩
      · exact ⟨12, if_neg h2, le_refl 12⟩
  | negInf =>
      exact ⟨12, clampAxis_negInf dim, le_refl 12⟩

/-- If the viewport dimension is below 24 the clamp degenerates: every
non-NaN value is clamped to exactly 12. -/
lemma clampAxis_small (dim : ℚ) (hdim : dim < 24) (v : JSNum)
    (hv : v.isNaN = false) : clampAxis dim v = .num 12 := by
  have hlt : ¬ (12:ℚ) ≤ dim - 12 := not_le.mpr (by linarith)
  cases v with
  | nan => simp [JSNum.isNaN] at hv
  | num a =>
      rw [clampAxis_num]
      by_cases h1 : dim - 12 ≤ a
      · rw [if_pos h1, if_neg hlt]
      · have ha : ¬ (12:ℚ) ≤ a := not_le.mpr (by linarith [not_le.mp h1])
        rw [if_neg h1, if_neg ha]
  | posInf =>
      rw [clampAxis_posInf, if_neg hlt]
  | negInf => rfl

/-- C10 — Clamp asymmetry: whenever the mapper returns a point, each
coordinate is a finite value of at least 12 (the lower bound is applied
last, by `Math.max`); and if a viewport dimension is below 24, the
returned coordinate on that axis is exactly 12, which exceeds the upper
bound `dimension - 12`. -/
theorem clamp_lower_bound (d : GazeData) (c : Option Calib) (vw vh : ℚ)
    (px py : JSNum) (hmap : mapGaze d c vw vh = some (px, py)) :
    ((∃ qx : ℚ, px = .num qx ∧ 12 ≤ qx) ∧ (∃ qy : ℚ, py = .num qy ∧ 12 ≤ qy)) ∧
    (vw < 24 → px = .num 12 ∧ vw - 12 < 12) ∧
    (vh < 24 → py = .num 12 ∧ vh - 12 < 12) := by
  unfold mapGaze at hmap
  cases hraw : rawGaze d c vw vh with
  | none => rw [hraw] at hmap; exact absurd hmap (by simp)
  | some v =>
      cases v with
      | mk vx vy =>
          rw [hraw] at hmap
          dsimp only at hmap
          cases hx : vx.isNaN with
          | true =>
              rw [hx] at hmap
              simp at hmap
          | false =>
              cases hy : vy.isNaN with
              | true =>
                  rw [hx, hy] at hmap
                  simp at hmap
              | false =>
                  rw [hx, hy] at hmap
                  simp only [Bool.or_self, Bool.false_eq_true, if_false,
                    Option.some.injEq, Prod.mk.injEq] at hmap
                  obtain ⟨hpx, hpy⟩ := hmap
                  subst hpx
                  subst hpy
                  refine ⟨⟨clampAxis_lower vw vx hx, clampAxis_lower vh vy hy⟩, ?_, ?_⟩
                  · intro hvw
                    exact ⟨clampAxis_small vw hvw vx hx, by linarith⟩
                  · intro hvh
                    exact ⟨clampAxis_small vh hvh vy hy, by linarith⟩

/-- C10 witness: `normalized_pupil {x:1/2, y:1/2}` on a 20×1080 viewport
returns x = 12 exactly, although the upper bound `20 - 12 = 8` is below
12. -/
theorem clamp_lower_bound_witness :
    mapGaze ⟨none, some ⟨1/2, 1/2⟩⟩ none 20 1080 = some (.num 12, .num 540) ∧
    ((JSNum.num 12 = .num 12 ∧ (20:ℚ) - 12 < 12) ∧
      ∃ qy : ℚ, JSNum.num 540 = .num qy ∧ 12 ≤ qy) := by
  have hmap : mapGaze ⟨none, some ⟨1/2, 1/2⟩⟩ none 20 1080
      = some (.num 12, .num 540) := by
    norm_num [mapGaze, rawGaze, clampAxis, JSNum.mul, JSNum.div, JSNum.jmin,
      JSNum.jmax, JSNum.isNaN]
  have h := clamp_lower_bound ⟨none, some ⟨1/2, 1/2⟩⟩ none 20 1080
      (.num 12) (.num 540) hmap
  exact ⟨hmap, h.2.1 (by norm_num), h.1.2⟩

end GazeOverlay
